import Mathlib

/-!
Shallow embedding of `Platformer.py` (a 2D arcade platformer) and proofs
about its per-frame update logic.

External engine facilities (the pymunk physics step, arcade collision
queries, texture/map/sound loading, the window) are modelled as oracles
or opaque identifiers; everything the orchestration layer itself computes
is translated faithfully from the source.
-/

namespace Platformer

/-! ## Constants (module-level constants of `Platformer.py`) -/

def SPRITE_IMAGE_SIZE : ℕ := 128

def SPRITE_SCALE : ℚ := 1/2

/-- Constant `SPRITE_SIZE = int(SPRITE_IMAGE_SIZE * SPRITE_SCALE) + 1`. -/
def SPRITE_SIZE : ℚ := (⌊(SPRITE_IMAGE_SIZE : ℚ) * SPRITE_SCALE⌋ : ℚ) + 1

def SCREEN_GRID_WIDTH : ℚ := 30

def SCREEN_GRID_HEIGHT : ℚ := 20

def SCREEN_WIDTH : ℚ := 1920

def SCREEN_HEIGHT : ℚ := 1080

def PLAYER_FRICTION : ℚ := 1

def PLAYER_MOVE_FORCE_ON_GROUND : ℚ := 8000

def PLAYER_MOVE_FORCE_IN_AIR : ℚ := 900

def PLAYER_JUMP_IMPULSE : ℚ := 1400

def LEFT_VIEWPORT_MARGIN : ℚ := 900

def RIGHT_VIEWPORT_MARGIN : ℚ := 900

def BOTTOM_VIEWPORT_MARGIN : ℚ := 50

def TOP_VIEWPORT_MARGIN : ℚ := 100

def DEAD_ZONE : ℚ := 1/10

def RIGHT_FACING : ℕ := 0

def LEFT_FACING : ℕ := 1

def DISTANCE_TO_CHANGE_TEXTURE : ℚ := 10

/-- Python's `int()` conversion on a real value: truncation toward zero. -/
def pyInt (q : ℚ) : ℤ := if q < 0 then ⌈q⌉ else ⌊q⌋

/-! ## Player sprite (`class PlayerSprite`) -/

/-- The texture currently displayed by the player sprite.  Each constructor
corresponds to one of the loaded texture (pairs); the `facing` argument is
the index into the pair (`RIGHT_FACING = 0`, `LEFT_FACING = 1`). -/
inductive Texture where
  | idle (facing : ℕ)
  | jump (facing : ℕ)
  | fall (facing : ℕ)
  | walk (frame : ℕ) (facing : ℕ)
deriving DecidableEq, Repr

/-- Mutable state of a `PlayerSprite` instance.  `width`/`height` come from
the loaded texture's hit box (an asset property, passed in as data). -/
structure PlayerSprite where
  center_x : ℚ
  center_y : ℚ
  width : ℚ
  height : ℚ
  character_face_direction : ℕ
  current_texture : ℕ
  x_odometer : ℚ
  texture : Texture
deriving DecidableEq, Repr

/-- Constructor `PlayerSprite.__init__`: face right, frame 0, odometer 0, idle texture
(the `[0]`, i.e. right-facing, member of the idle pair). -/
def PlayerSprite.init (w h : ℚ) : PlayerSprite :=
  { center_x := 0
    center_y := 0
    width := w
    height := h
    character_face_direction := RIGHT_FACING
    current_texture := 0
    x_odometer := 0
    texture := .idle RIGHT_FACING }

def PlayerSprite.left (p : PlayerSprite) : ℚ := p.center_x - p.width / 2

def PlayerSprite.right (p : PlayerSprite) : ℚ := p.center_x + p.width / 2

def PlayerSprite.top (p : PlayerSprite) : ℚ := p.center_y + p.height / 2

def PlayerSprite.bottom (p : PlayerSprite) : ℚ := p.center_y - p.height / 2

/-- Method `PlayerSprite.pymunk_moved(self, physics_engine, dx, dy, d_angle)`.
`g` is the engine's `is_on_ground(self)` answer.  Mirrors the source:
facing update, odometer accumulation, then jump/fall/idle/walk texture
selection with early returns. -/
def pymunk_moved (g : Bool) (dx dy : ℚ) (p : PlayerSprite) : PlayerSprite :=
  let face : ℕ :=
    if dx < -DEAD_ZONE ∧ p.character_face_direction = RIGHT_FACING then LEFT_FACING
    else if dx > DEAD_ZONE ∧ p.character_face_direction = LEFT_FACING then RIGHT_FACING
    else p.character_face_direction
  let p1 := { p with character_face_direction := face, x_odometer := p.x_odometer + dx }
  if g = false ∧ dy > DEAD_ZONE then
    { p1 with texture := .jump face }
  else if g = false ∧ dy < -DEAD_ZONE then
    { p1 with texture := .fall face }
  else if |dx| ≤ DEAD_ZONE then
    { p1 with texture := .idle face }
  else if |p1.x_odometer| > DISTANCE_TO_CHANGE_TEXTURE then
    let ct := if p.current_texture + 1 > 7 then 0 else p.current_texture + 1
    { p1 with x_odometer := 0, current_texture := ct, texture := .walk ct face }
  else
    p1

/-! ## Game window state (`class GameWindow`) -/

/-- Side effects issued to the external engine (arcade / pymunk) during a
callback, in issue order. -/
inductive Effect where
  | applyForce (fx fy : ℚ)
  | setFriction (f : ℚ)
  | applyImpulse (ix iy : ℚ)
  | loadMap (level : ℕ)
  | setViewport (l r b t : ℚ)
  | playSound
  | stepPhysics
deriving DecidableEq, Repr

def Effect.isForce : Effect → Bool
  | .applyForce _ _ => true
  | _ => false

def Effect.isFriction : Effect → Bool
  | .setFriction _ => true
  | _ => false

def Effect.isImpulse : Effect → Bool
  | .applyImpulse _ _ => true
  | _ => false

def Effect.isLoad : Effect → Bool
  | .loadMap _ => true
  | _ => false

def Effect.isViewport : Effect → Bool
  | .setViewport _ _ _ _ => true
  | _ => false

def Effect.isSound : Effect → Bool
  | .playSound => true
  | _ => false

def Effect.isStep : Effect → Bool
  | .stepPhysics => true
  | _ => false

/-- Contents of one `Maps/map{level}.tmx` resource: its width in tiles and
the sprites of the three processed layers (identified by opaque ids). -/
structure MapData where
  map_width : ℚ
  platforms : List ℕ
  dynamicItems : List ℕ
  valuables : List ℕ
deriving DecidableEq, Repr

/-- External assets and resources: the map for each level number, and the
player sprite's hit-box extent (taken from the loaded idle texture). -/
structure Env where
  maps : ℕ → MapData
  player_width : ℚ
  player_height : ℚ

/-- Mutable fields of the `GameWindow` instance.  Sprite-list members are
identified by opaque ids; the physics engine itself is external. -/
structure GameState where
  player_sprite : PlayerSprite
  wall_list : List ℕ
  item_list : List ℕ
  gem_list : List ℕ
  left_pressed : Bool
  right_pressed : Bool
  view_bottom : ℚ
  view_left : ℚ
  level : ℕ
  end_of_map : ℚ
deriving DecidableEq, Repr

/-- Constructor `GameWindow.__init__` field initialisation (sprite fields are set to
`None` in the source and populated by `setup`; here the first `setup` call
of `main` supplies them, so `init` only records the scalar fields). -/
def GameWindow.initState (env : Env) : GameState :=
  { player_sprite := PlayerSprite.init env.player_width env.player_height
    wall_list := []
    item_list := []
    gem_list := []
    left_pressed := false
    right_pressed := false
    view_bottom := 0
    view_left := 0
    level := 1
    end_of_map := 0 }

/-- Method `GameWindow.setup(self, level)`: reads the tmx map for `level`,
computes `end_of_map`, replaces the wall/item/gem lists from the map's
layers, creates a fresh `PlayerSprite` placed at grid (2,2), and registers
everything with a newly created physics engine (external). -/
def GameWindow.setup (env : Env) (level : ℕ) (s : GameState) : GameState :=
  let my_map := env.maps level
  let grid_x : ℚ := 2
  let grid_y : ℚ := 2
  let player :=
    { PlayerSprite.init env.player_width env.player_height with
        center_x := SPRITE_SIZE * grid_x + SPRITE_SIZE / 2
        center_y := SPRITE_SIZE * grid_y + SPRITE_SIZE / 2 }
  { s with
      end_of_map := my_map.map_width * SCREEN_GRID_WIDTH + 800
      wall_list := my_map.platforms
      item_list := my_map.dynamicItems
      gem_list := my_map.valuables
      player_sprite := player }

/-- The keys ( `arcade.key.*` ) the handlers test for. -/
inductive Key where
  | leftArrow | a | rightArrow | d | upArrow | space | w | other
deriving DecidableEq, Repr

/-- Handler `GameWindow.on_key_press`.  `g` is the engine's answer to
`is_on_ground(player_sprite)` at the press. -/
def GameWindow.on_key_press (g : Bool) (k : Key) (s : GameState) :
    GameState × List Effect :=
  if k = .leftArrow ∨ k = .a then
    ({ s with left_pressed := true }, [])
  else if k = .rightArrow ∨ k = .d then
    ({ s with right_pressed := true }, [])
  else if k = .upArrow ∨ k = .space ∨ k = .w then
    if g then (s, [.applyImpulse 0 PLAYER_JUMP_IMPULSE]) else (s, [])
  else
    (s, [])

/-- Handler `GameWindow.on_key_release`. -/
def GameWindow.on_key_release (k : Key) (s : GameState) : GameState :=
  if k = .leftArrow ∨ k = .a then
    { s with left_pressed := false }
  else if k = .rightArrow ∨ k = .d then
    { s with right_pressed := false }
  else
    s

/-- Per-tick answers of the external engine: `is_on_ground` queried at the
top of `on_update`; `hit` is `arcade.check_for_collision_with_list`
restricted to the gems; `step_dx`/`step_dy` the displacement the physics
step reports to `pymunk_moved`, and `step_on_ground` the ground query made
inside that callback. -/
structure TickOracle where
  is_on_ground : Bool
  hit : ℕ → Bool
  step_dx : ℚ
  step_dy : ℚ
  step_on_ground : Bool

/-- Section "UPDATE PLAYER FORCES" of `on_update` (source lines 282-312).
Only engine calls are made here; no `GameWindow` field changes. -/
def updatePlayerForces (g : Bool) (s : GameState) : List Effect :=
  if s.left_pressed = true ∧ s.right_pressed = false then
    let force : ℚ := if g then PLAYER_MOVE_FORCE_ON_GROUND else PLAYER_MOVE_FORCE_IN_AIR
    [.applyForce (-force) 0, .setFriction 0]
  else if s.right_pressed = true ∧ s.left_pressed = false then
    let force : ℚ := if g then PLAYER_MOVE_FORCE_ON_GROUND else PLAYER_MOVE_FORCE_IN_AIR
    [.applyForce force 0, .setFriction 0]
  else
    [.setFriction (1 : ℚ)]

/-- Level-end check of `on_update` (source lines 314-320): if the player has
reached `end_of_map`, increment `level` and call `setup` with it. -/
def checkLevelEnd (env : Env) (s : GameState) : GameState × List Effect :=
  if s.player_sprite.center_x ≥ s.end_of_map then
    let s1 := { s with level := s.level + 1 }
    (GameWindow.setup env s1.level s1, [.loadMap s1.level])
  else
    (s, [])

/-- "Scroll left" check (source lines 327-331): `st` is the current
`(view_left, changed)`, `pl` the player's left edge. -/
def scrollLeft (pl : ℚ) (st : ℚ × Bool) : ℚ × Bool :=
  let left_boundary := st.1 + LEFT_VIEWPORT_MARGIN
  if pl < left_boundary then (st.1 - (left_boundary - pl), true) else st

/-- "Scroll right" check (source lines 333-337): `st` is the current
`(view_left, changed)`, `pr` the player's right edge. -/
def scrollRight (pr : ℚ) (st : ℚ × Bool) : ℚ × Bool :=
  let right_boundary := st.1 + SCREEN_WIDTH - RIGHT_VIEWPORT_MARGIN
  if pr > right_boundary then (st.1 + (pr - right_boundary), true) else st

/-- "Scroll up" check (source lines 339-343): `st` is the current
`(view_bottom, changed)`, `pt` the player's top edge. -/
def scrollTop (pt : ℚ) (st : ℚ × Bool) : ℚ × Bool :=
  let top_boundary := st.1 + SCREEN_HEIGHT - TOP_VIEWPORT_MARGIN
  if pt > top_boundary then (st.1 + (pt - top_boundary), true) else st

/-- "Scroll down" check (source lines 345-349): `st` is the current
`(view_bottom, changed)`, `pb` the player's bottom edge. -/
def scrollBottom (pb : ℚ) (st : ℚ × Bool) : ℚ × Bool :=
  let bottom_boundary := st.1 + BOTTOM_VIEWPORT_MARGIN
  if pb < bottom_boundary then (st.1 - (bottom_boundary - pb), true) else st

/-- Section "MANAGE SCREEN SCROLLING" of `on_update`, the four margin checks
(source lines 324-349) run in source order (left, right, up, down), each
reading the offset its axis currently has and threading the `changed`
flag; returns the accumulated `view_left`, `view_bottom` and `changed`. -/
def scrollRaw (s : GameState) : ℚ × ℚ × Bool :=
  let h := scrollRight s.player_sprite.right
    (scrollLeft s.player_sprite.left (s.view_left, false))
  let v := scrollBottom s.player_sprite.bottom
    (scrollTop s.player_sprite.top (s.view_bottom, h.2))
  (h.1, v.1, v.2)

/-- Section "MANAGE SCREEN SCROLLING" of `on_update` (source lines 322-360):
the four margin checks, then — only `if changed` — conversion of both
offsets with `int()` and the `arcade.set_viewport` call. -/
def scrollViewport (s : GameState) : GameState × List Effect :=
  let r := scrollRaw s
  if r.2.2 then
    let view_bottom : ℚ := (pyInt r.2.1 : ℚ)
    let view_left : ℚ := (pyInt r.1 : ℚ)
    ({ s with view_left := view_left, view_bottom := view_bottom },
     [.setViewport view_left (SCREEN_WIDTH + view_left) view_bottom
        (SCREEN_HEIGHT + view_bottom)])
  else
    ({ s with view_left := r.1, view_bottom := r.2.1 }, [])

/-- Gem pickup in `on_update` (source lines 363-372): every gem colliding
with the player is removed from its sprite lists and one sound is played
per removed gem. -/
def collectGems (hit : ℕ → Bool) (s : GameState) : GameState × List Effect :=
  let gem_hit_list := s.gem_list.filter (fun gem => hit gem)
  ({ s with gem_list := s.gem_list.filter (fun gem => !(hit gem)) },
   gem_hit_list.map (fun _ => .playSound))

/-- Call `self.physics_engine.step()` (source line 374): the engine integrates
bodies — moving the player by the oracle's `(step_dx, step_dy)` — and
invokes `pymunk_moved` on the player with that displacement. -/
def stepEngine (o : TickOracle) (s : GameState) : GameState :=
  let moved :=
    { s.player_sprite with
        center_x := s.player_sprite.center_x + o.step_dx
        center_y := s.player_sprite.center_y + o.step_dy }
  { s with player_sprite := pymunk_moved o.step_on_ground o.step_dx o.step_dy moved }

/-- Method `GameWindow.on_update(self, delta_time)`: forces, level-end check,
camera scrolling, gem pickup, then the physics step, in source order. -/
def GameWindow.on_update (env : Env) (o : TickOracle) (s : GameState) :
    GameState × List Effect :=
  let forceFx := updatePlayerForces o.is_on_ground s
  let r1 := checkLevelEnd env s
  let r2 := scrollViewport r1.1
  let r3 := collectGems o.hit r2.1
  let s4 := stepEngine o r3.1
  (s4, forceFx ++ r1.2 ++ r2.2 ++ r3.2 ++ [.stepPhysics])

/-- The exact condition under which `pymunk_moved` reaches the
walk-frame advance (read off the source's control flow): no jump/fall
early return, `|dx|` above the dead zone, and the accumulated signed
odometer past the distance threshold. -/
def walkAdvances (g : Bool) (dx dy : ℚ) (p : PlayerSprite) : Prop :=
  ¬(g = false ∧ dy > DEAD_ZONE) ∧ ¬(g = false ∧ dy < -DEAD_ZONE) ∧
    ¬(|dx| ≤ DEAD_ZONE) ∧ |p.x_odometer + dx| > DISTANCE_TO_CHANGE_TEXTURE

/-- A sequence of `pymunk_moved` callbacks (one per engine step), each
with its ground flag and reported displacement `(dx, dy)`. -/
def runMoves (ms : List (Bool × ℚ × ℚ)) (p : PlayerSprite) : PlayerSprite :=
  ms.foldl (fun q m => pymunk_moved m.1 m.2.1 m.2.2 q) p

/-- A sequence of gem-pickup passes (one per tick, each with that tick's
collision answers), within a single level instance. -/
def runGemTicks (hs : List (ℕ → Bool)) (s : GameState) : GameState :=
  hs.foldl (fun t h => (collectGems h t).1) s

/-! ## Concrete fixtures used by witnesses and counterexamples -/

/-- A small environment: every level's map is 10 tiles wide with one gem. -/
def envA : Env :=
  { maps := fun _ => { map_width := 10, platforms := [5], dynamicItems := [7], valuables := [1] }
    player_width := 63
    player_height := 63 }

/-- A tick oracle: grounded, every gem collides, zero step displacement. -/
def oracleA : TickOracle :=
  { is_on_ground := true
    hit := fun _ => true
    step_dx := 0
    step_dy := 0
    step_on_ground := true }

/-- The player sprite as `setup` spawns it in `envA` (grid (2,2), so
`center = 65*2 + 65/2 = 162.5` on both axes). -/
def playerA : PlayerSprite :=
  { center_x := 325/2
    center_y := 325/2
    width := 63
    height := 63
    character_face_direction := RIGHT_FACING
    current_texture := 0
    x_odometer := 0
    texture := .idle RIGHT_FACING }

/-- A state just before a level transition: the spawned player sits at
`center_x = 162.5`, past an artificial `end_of_map` of 100. -/
def stateA : GameState :=
  { player_sprite := playerA
    wall_list := [5]
    item_list := [7]
    gem_list := [1]
    left_pressed := false
    right_pressed := false
    view_bottom := 0
    view_left := 0
    level := 1
    end_of_map := 100 }

/-- State `stateA` after the level-end branch fired: level 2 freshly set up. -/
def stateB : GameState :=
  { player_sprite := playerA
    wall_list := [5]
    item_list := [7]
    gem_list := [1]
    left_pressed := false
    right_pressed := false
    view_bottom := 0
    view_left := 0
    level := 2
    end_of_map := 1100 }

/-- A player whose left edge (at 899.5) is half a pixel inside the left
margin while both vertical edges are inside the vertical margins. -/
def playerC6 : PlayerSprite :=
  { center_x := 935
    center_y := 500
    width := 71
    height := 100
    character_face_direction := RIGHT_FACING
    current_texture := 0
    x_odometer := 0
    texture := .idle RIGHT_FACING }

/-- State exercising a fractional negative camera offset. -/
def stateC6 : GameState :=
  { player_sprite := playerC6
    wall_list := []
    item_list := []
    gem_list := []
    left_pressed := false
    right_pressed := false
    view_bottom := 0
    view_left := 0
    level := 1
    end_of_map := 1100 }

/-- A player inside both horizontal margins but above the top margin. -/
def playerV : PlayerSprite :=
  { center_x := 1005
    center_y := 2000
    width := 10
    height := 20
    character_face_direction := RIGHT_FACING
    current_texture := 0
    x_odometer := 0
    texture := .idle RIGHT_FACING }

/-- State where only vertical scrolling fires. -/
def stateV : GameState :=
  { player_sprite := playerV
    wall_list := []
    item_list := []
    gem_list := []
    left_pressed := false
    right_pressed := false
    view_bottom := 0
    view_left := 0
    level := 1
    end_of_map := 1100 }

/-- A player inside both vertical margins but past the left margin. -/
def playerH : PlayerSprite :=
  { center_x := 105
    center_y := 500
    width := 10
    height := 20
    character_face_direction := RIGHT_FACING
    current_texture := 0
    x_odometer := 0
    texture := .idle RIGHT_FACING }

/-- State where only horizontal scrolling fires. -/
def stateH : GameState :=
  { player_sprite := playerH
    wall_list := []
    item_list := []
    gem_list := []
    left_pressed := false
    right_pressed := false
    view_bottom := 0
    view_left := 0
    level := 1
    end_of_map := 1100 }

end Platformer

namespace Platformer

/-- The effect trace of a tick is the concatenation of the section
traces, with the physics step last. -/
lemma on_update_trace (env : Env) (o : TickOracle) (s : GameState) :
    (GameWindow.on_update env o s).2 =
      updatePlayerForces o.is_on_ground s ++ (checkLevelEnd env s).2 ++
        (scrollViewport (checkLevelEnd env s).1).2 ++
        (collectGems o.hit (scrollViewport (checkLevelEnd env s).1).1).2 ++
        [Effect.stepPhysics] := rfl

/-- The state after a tick is the section composition applied to `s`. -/
lemma on_update_state (env : Env) (o : TickOracle) (s : GameState) :
    (GameWindow.on_update env o s).1 =
      stepEngine o
        (collectGems o.hit (scrollViewport (checkLevelEnd env s).1).1).1 := rfl

lemma pyInt_intCast (n : ℤ) : pyInt (n : ℚ) = n := by
  unfold pyInt
  split_ifs <;> simp

lemma pyInt_neg769 : pyInt (-769 : ℚ) = -769 := by
  have h : ((-769 : ℤ) : ℚ) = (-769 : ℚ) := by norm_num
  rw [← h, pyInt_intCast]

lemma pyInt_zero : pyInt (0 : ℚ) = 0 := by
  have h : ((0 : ℤ) : ℚ) = (0 : ℚ) := by norm_num
  rw [← h, pyInt_intCast]

lemma checkLevelEndA :
    checkLevelEnd envA stateA = (stateB, [Effect.loadMap 2]) := by
  have hcond : stateA.player_sprite.center_x ≥ stateA.end_of_map := by
    norm_num [stateA, playerA]
  simp only [checkLevelEnd, if_pos hcond]
  simp only [stateA, stateB, playerA, envA, GameWindow.setup, PlayerSprite.init,
    Prod.mk.injEq, GameState.mk.injEq, PlayerSprite.mk.injEq]
  norm_num [SPRITE_SIZE, SPRITE_IMAGE_SIZE, SPRITE_SCALE, SCREEN_GRID_WIDTH]

lemma scrollRawB : scrollRaw stateB = (-769, 0, true) := by
  have h1 : scrollLeft stateB.player_sprite.left (stateB.view_left, false) =
      (-769, true) := by
    norm_num [scrollLeft, stateB, playerA, PlayerSprite.left, LEFT_VIEWPORT_MARGIN]
  have h2 : scrollRight stateB.player_sprite.right (-769, true) = (-769, true) := by
    norm_num [scrollRight, stateB, playerA, PlayerSprite.right,
      RIGHT_VIEWPORT_MARGIN, SCREEN_WIDTH]
  have h3 : scrollTop stateB.player_sprite.top (stateB.view_bottom, true) =
      (0, true) := by
    norm_num [scrollTop, stateB, playerA, PlayerSprite.top, TOP_VIEWPORT_MARGIN,
      SCREEN_HEIGHT]
  have h4 : scrollBottom stateB.player_sprite.bottom (0, true) = (0, true) := by
    norm_num [scrollBottom, stateB, playerA, PlayerSprite.bottom,
      BOTTOM_VIEWPORT_MARGIN]
  simp only [scrollRaw, h1, h2, h3, h4]

lemma scrollViewportB :
    scrollViewport stateB =
      ({ stateB with view_left := -769, view_bottom := 0 },
       [Effect.setViewport (-769) 1151 0 1080]) := by
  simp only [scrollViewport, scrollRawB]
  norm_num [pyInt_neg769, pyInt_zero, SCREEN_WIDTH, SCREEN_HEIGHT]

lemma collectGemsB :
    collectGems oracleA.hit { stateB with view_left := -769, view_bottom := 0 } =
      ({ stateB with view_left := -769, view_bottom := 0, gem_list := [] },
       [Effect.playSound]) := by
  have hg : stateB.gem_list = [1] := rfl
  simp [collectGems, oracleA, hg]

/-- The full effect trace of one `on_update` tick at `stateA`. -/
lemma onUpdateA_trace :
    (GameWindow.on_update envA oracleA stateA).2 =
      [Effect.setFriction 1, Effect.loadMap 2,
       Effect.setViewport (-769) 1151 0 1080, Effect.playSound,
       Effect.stepPhysics] := by
  have hforce : updatePlayerForces oracleA.is_on_ground stateA = [Effect.setFriction 1] := by
    have hl : stateA.left_pressed = false := rfl
    have hr : stateA.right_pressed = false := rfl
    simp [updatePlayerForces, hl, hr]
  rw [on_update_trace, hforce]
  simp only [checkLevelEndA, scrollViewportB, collectGemsB]
  rfl

/-! ## C1: order of operations within one update tick -/

/-- C1 counterexample: at the concrete tick `(envA, oracleA, stateA)` the
claim "the physics simulation step precedes the level-end, camera, and
collectible checks of the same tick" is false: the level-load, viewport
and pickup-sound effects are all issued strictly before the physics-step
call. -/
theorem C1_counterexample :
    ((GameWindow.on_update envA oracleA stateA).2.findIdx Effect.isLoad <
       (GameWindow.on_update envA oracleA stateA).2.findIdx Effect.isStep) ∧
    ((GameWindow.on_update envA oracleA stateA).2.findIdx Effect.isViewport <
       (GameWindow.on_update envA oracleA stateA).2.findIdx Effect.isStep) ∧
    ((GameWindow.on_update envA oracleA stateA).2.findIdx Effect.isSound <
       (GameWindow.on_update envA oracleA stateA).2.findIdx Effect.isStep) := by
  rw [onUpdateA_trace]
  refine ⟨?_, ?_, ?_⟩ <;>
    simp [List.findIdx, List.findIdx.go, Effect.isLoad, Effect.isStep,
      Effect.isViewport, Effect.isSound]

/-- C1 (amended): in every update tick the operations run in the source
order input-to-force translation, level-end check, camera-bounds
recomputation, collectible removal, and the physics step last (the
animation update runs inside that step); the physics step never precedes
the other checks. -/
theorem C1_tick_order (env : Env) (o : TickOracle) (s : GameState) :
    ∃ f l c g,
      (GameWindow.on_update env o s).2 = f ++ l ++ c ++ g ++ [Effect.stepPhysics] ∧
      f.all (fun e => e.isForce || e.isFriction) = true ∧
      l.all Effect.isLoad = true ∧
      c.all Effect.isViewport = true ∧
      g.all Effect.isSound = true := by
  refine ⟨updatePlayerForces o.is_on_ground s, (checkLevelEnd env s).2,
    (scrollViewport (checkLevelEnd env s).1).2,
    (collectGems o.hit (scrollViewport (checkLevelEnd env s).1).1).2,
    on_update_trace env o s, ?_, ?_, ?_, ?_⟩
  · rw [updatePlayerForces]
    split_ifs <;> simp [Effect.isForce, Effect.isFriction]
  · rw [checkLevelEnd]
    split_ifs <;> simp [Effect.isLoad]
  · simp only [scrollViewport]
    rcases h : scrollRaw (checkLevelEnd env s).1 with ⟨vl, vb, c⟩
    cases c <;> simp [Effect.isViewport]
  · rw [collectGems]
    simp [List.all_eq_true, Effect.isSound]

/-! ## Field-preservation helper lemmas -/

lemma scrollViewport_fields (s : GameState) :
    (scrollViewport s).1.player_sprite = s.player_sprite ∧
    (scrollViewport s).1.wall_list = s.wall_list ∧
    (scrollViewport s).1.item_list = s.item_list ∧
    (scrollViewport s).1.gem_list = s.gem_list ∧
    (scrollViewport s).1.left_pressed = s.left_pressed ∧
    (scrollViewport s).1.right_pressed = s.right_pressed ∧
    (scrollViewport s).1.level = s.level ∧
    (scrollViewport s).1.end_of_map = s.end_of_map := by
  simp only [scrollViewport]
  rcases h : scrollRaw s with ⟨vl, vb, c⟩
  cases c <;> simp

lemma setup_fields (env : Env) (lvl : ℕ) (s : GameState) :
    (GameWindow.setup env lvl s).view_left = s.view_left ∧
    (GameWindow.setup env lvl s).view_bottom = s.view_bottom ∧
    (GameWindow.setup env lvl s).left_pressed = s.left_pressed ∧
    (GameWindow.setup env lvl s).right_pressed = s.right_pressed ∧
    (GameWindow.setup env lvl s).level = s.level :=
  ⟨rfl, rfl, rfl, rfl, rfl⟩

lemma checkLevelEnd_fields (env : Env) (s : GameState) :
    (checkLevelEnd env s).1.view_left = s.view_left ∧
    (checkLevelEnd env s).1.view_bottom = s.view_bottom ∧
    (checkLevelEnd env s).1.left_pressed = s.left_pressed ∧
    (checkLevelEnd env s).1.right_pressed = s.right_pressed := by
  unfold checkLevelEnd
  split_ifs <;> simp [GameWindow.setup]

lemma checkLevelEnd_level (env : Env) (s : GameState) :
    (checkLevelEnd env s).1.level =
      if s.player_sprite.center_x ≥ s.end_of_map then s.level + 1 else s.level := by
  unfold checkLevelEnd
  split_ifs <;> simp [GameWindow.setup]

/-! ## C2: level transition -/

/-- C2: on a tick whose player `center_x` has reached `end_of_map`
(computed by `setup` as map width in tiles times 30 plus 800), the level
counter increments by exactly 1 and `setup` replaces the wall, item and
gem lists with the new level's layers and respawns the player at the
grid-(2,2) point `SPRITE_SIZE*2 + SPRITE_SIZE/2` on both axes; a tick
below the threshold leaves the state of the level check unchanged, and
over a whole update tick the level field changes exactly on threshold
ticks. -/
theorem C2_level_transition (env : Env) (o : TickOracle) (s : GameState) :
    (s.player_sprite.center_x ≥ s.end_of_map →
      (checkLevelEnd env s).1.level = s.level + 1 ∧
      (checkLevelEnd env s).1.wall_list = (env.maps (s.level + 1)).platforms ∧
      (checkLevelEnd env s).1.item_list = (env.maps (s.level + 1)).dynamicItems ∧
      (checkLevelEnd env s).1.gem_list = (env.maps (s.level + 1)).valuables ∧
      (checkLevelEnd env s).1.end_of_map =
        (env.maps (s.level + 1)).map_width * SCREEN_GRID_WIDTH + 800 ∧
      (checkLevelEnd env s).1.player_sprite.center_x =
        SPRITE_SIZE * 2 + SPRITE_SIZE / 2 ∧
      (checkLevelEnd env s).1.player_sprite.center_y =
        SPRITE_SIZE * 2 + SPRITE_SIZE / 2) ∧
    (s.player_sprite.center_x < s.end_of_map →
      (checkLevelEnd env s).1 = s ∧ (checkLevelEnd env s).2 = []) ∧
    (GameWindow.on_update env o s).1.level =
      (if s.player_sprite.center_x ≥ s.end_of_map then s.level + 1 else s.level) := by
  refine ⟨?_, ?_, ?_⟩
  · intro h
    simp [checkLevelEnd, if_pos h, GameWindow.setup, PlayerSprite.init]
  · intro h
    have hn : ¬ s.player_sprite.center_x ≥ s.end_of_map := not_le.mpr h
    simp [checkLevelEnd, if_neg hn]
  · have h0 : (GameWindow.on_update env o s).1.level =
        (scrollViewport (checkLevelEnd env s).1).1.level := rfl
    obtain ⟨-, -, -, -, -, -, hlvl, -⟩ := scrollViewport_fields (checkLevelEnd env s).1
    rw [h0, hlvl, checkLevelEnd_level]

/-- C2 witness: at `stateA` (player past the threshold) the level becomes
2 and the player is respawned at 162.5; at `stateB` (player below the
threshold) the check changes nothing. -/
theorem C2_level_transition_witness :
    (checkLevelEnd envA stateA).1.level = 2 ∧
    (checkLevelEnd envA stateA).1.player_sprite.center_x = 325/2 ∧
    (checkLevelEnd envA stateB).1 = stateB := by
  have h1 := (C2_level_transition envA oracleA stateA).1
    (by norm_num [stateA, playerA])
  have h2 := (C2_level_transition envA oracleA stateB).2.1
    (by norm_num [stateB, playerA])
  refine ⟨?_, ?_, h2.1⟩
  · rw [h1.1]
    rfl
  · rw [h1.2.2.2.2.2.1]
    norm_num [SPRITE_SIZE, SPRITE_IMAGE_SIZE, SPRITE_SCALE]

/-! ## C3: input-to-force translation -/

/-- C3: the per-tick input translation is total and deterministic on the
two held-key flags: left-only applies the leftward force (8000 grounded,
900 airborne) and zeroes friction, right-only the rightward force and
zeroes friction, and both-or-neither issues no force and sets friction to
1.0. -/
theorem C3_input_translation (g : Bool) (s : GameState) :
    (s.left_pressed = true → s.right_pressed = false →
      updatePlayerForces g s =
        [Effect.applyForce
            (-(if g then PLAYER_MOVE_FORCE_ON_GROUND else PLAYER_MOVE_FORCE_IN_AIR)) 0,
         Effect.setFriction 0]) ∧
    (s.right_pressed = true → s.left_pressed = false →
      updatePlayerForces g s =
        [Effect.applyForce
            (if g then PLAYER_MOVE_FORCE_ON_GROUND else PLAYER_MOVE_FORCE_IN_AIR) 0,
         Effect.setFriction 0]) ∧
    (s.left_pressed = s.right_pressed →
      updatePlayerForces g s = [Effect.setFriction 1] ∧
      (updatePlayerForces g s).all (fun e => !e.isForce) = true) ∧
    PLAYER_MOVE_FORCE_ON_GROUND = 8000 ∧ PLAYER_MOVE_FORCE_IN_AIR = 900 ∧
    PLAYER_FRICTION = 1 := by
  refine ⟨?_, ?_, ?_, rfl, rfl, rfl⟩
  · intro hl hr
    simp [updatePlayerForces, hl, hr]
  · intro hr hl
    simp [updatePlayerForces, hl, hr]
  · intro hlr
    have h : updatePlayerForces g s = [Effect.setFriction 1] := by
      rcases hb : s.left_pressed with _ | _ <;>
        simp [updatePlayerForces, hb, hlr ▸ hb, ← hlr]
    exact ⟨h, by simp [h, Effect.isForce]⟩

/-- C3 witness: the three translation cases evaluated at concrete states. -/
theorem C3_input_translation_witness :
    updatePlayerForces true { stateA with left_pressed := true } =
      [Effect.applyForce (-8000) 0, Effect.setFriction 0] ∧
    updatePlayerForces false { stateA with right_pressed := true } =
      [Effect.applyForce 900 0, Effect.setFriction 0] ∧
    updatePlayerForces true stateA = [Effect.setFriction 1] := by
  refine ⟨?_, ?_, ?_⟩
  · have h := (C3_input_translation true { stateA with left_pressed := true }).1 rfl rfl
    rw [h]
    norm_num [PLAYER_MOVE_FORCE_ON_GROUND]
  · have h := (C3_input_translation false
      { stateA with right_pressed := true }).2.1 rfl rfl
    rw [h]
    norm_num [PLAYER_MOVE_FORCE_IN_AIR]
  · exact ((C3_input_translation true stateA).2.2.1 rfl).1

/-! ## C4: walk-cycle frame advance and the odometer -/

/-- C4 counterexample: on the walking tick `dx = -5` from odometer 8, the
code adds the signed `dx` (odometer becomes 3) rather than `|dx|` (which
would give 13, past the threshold 10 and hence an advance): the frame
index does not advance and the odometer is not `8 + |dx|`. -/
theorem C4_counterexample :
    (pymunk_moved true (-5) 0 { playerA with x_odometer := 8 }).x_odometer = 3 ∧
    (pymunk_moved true (-5) 0 { playerA with x_odometer := 8 }).x_odometer ≠
      8 + |(-5 : ℚ)| ∧
    (pymunk_moved true (-5) 0 { playerA with x_odometer := 8 }).current_texture =
      ({ playerA with x_odometer := 8 } : PlayerSprite).current_texture ∧
    8 + |(-5 : ℚ)| > DISTANCE_TO_CHANGE_TEXTURE := by
  refine ⟨?_, ?_, ?_, ?_⟩ <;>
    norm_num [pymunk_moved, playerA, DEAD_ZONE, DISTANCE_TO_CHANGE_TEXTURE,
      RIGHT_FACING, LEFT_FACING]

/-- C4 (amended): the frame index stays in `[0, 7]` and advances by
exactly one step cyclically (7 wraps to 0), exactly on the calls where no
jump/fall early return happens, `|dx|` is above the dead zone, and the
magnitude of the signed accumulated odometer `x_odometer + dx` exceeds
the threshold 10; on those calls the odometer resets to 0, on every other
call the signed `dx` is added to the odometer and the frame is
unchanged. -/
theorem C4_walk_cycle (g : Bool) (dx dy : ℚ) (p : PlayerSprite)
    (h7 : p.current_texture ≤ 7) :
    ((pymunk_moved g dx dy p).current_texture ≤ 7) ∧
    (walkAdvances g dx dy p →
      (pymunk_moved g dx dy p).current_texture = (p.current_texture + 1) % 8 ∧
      (pymunk_moved g dx dy p).x_odometer = 0) ∧
    (¬ walkAdvances g dx dy p →
      (pymunk_moved g dx dy p).current_texture = p.current_texture ∧
      (pymunk_moved g dx dy p).x_odometer = p.x_odometer + dx) := by
  have hadv : walkAdvances g dx dy p →
      (pymunk_moved g dx dy p).current_texture = (p.current_texture + 1) % 8 ∧
      (pymunk_moved g dx dy p).x_odometer = 0 := by
    intro hw
    obtain ⟨w1, w2, w3, w4⟩ := hw
    simp only [pymunk_moved]
    rw [if_neg w1, if_neg w2, if_neg w3, if_pos w4]
    refine ⟨?_, rfl⟩
    show (if p.current_texture + 1 > 7 then (0 : ℕ) else p.current_texture + 1) =
      (p.current_texture + 1) % 8
    split_ifs <;> omega
  have hno : ¬ walkAdvances g dx dy p →
      (pymunk_moved g dx dy p).current_texture = p.current_texture ∧
      (pymunk_moved g dx dy p).x_odometer = p.x_odometer + dx := by
    intro hn
    simp only [pymunk_moved]
    by_cases hA : g = false ∧ dy > DEAD_ZONE
    · rw [if_pos hA]; exact ⟨rfl, rfl⟩
    · rw [if_neg hA]
      by_cases hB : g = false ∧ dy < -DEAD_ZONE
      · rw [if_pos hB]; exact ⟨rfl, rfl⟩
      · rw [if_neg hB]
        by_cases hC : |dx| ≤ DEAD_ZONE
        · rw [if_pos hC]; exact ⟨rfl, rfl⟩
        · have hD : ¬ (|p.x_odometer + dx| > DISTANCE_TO_CHANGE_TEXTURE) :=
            fun hD => hn ⟨hA, hB, hC, hD⟩
          rw [if_neg hC, if_neg hD]
          exact ⟨rfl, rfl⟩
  refine ⟨?_, hadv, hno⟩
  by_cases hw : walkAdvances g dx dy p
  · rw [(hadv hw).1]; omega
  · rw [(hno hw).1]; exact h7

/-- C4 witness: an advancing call (dx = 6 from odometer 8: frame 0 → 1,
odometer reset) and a non-advancing call (dx = -5 from odometer 8). -/
theorem C4_walk_cycle_witness :
    (pymunk_moved true 6 0 { playerA with x_odometer := 8 }).current_texture = 1 ∧
    (pymunk_moved true 6 0 { playerA with x_odometer := 8 }).x_odometer = 0 ∧
    (pymunk_moved true (-5) 0 { playerA with x_odometer := 8 }).current_texture = 0 := by
  have hadv : walkAdvances true 6 0 { playerA with x_odometer := 8 } := by
    refine ⟨?_, ?_, ?_, ?_⟩ <;> norm_num [playerA, DEAD_ZONE, DISTANCE_TO_CHANGE_TEXTURE]
  have hnadv : ¬ walkAdvances true (-5) 0 { playerA with x_odometer := 8 } := by
    intro hw
    have := hw.2.2.2
    norm_num [playerA, DISTANCE_TO_CHANGE_TEXTURE] at this
  obtain ⟨-, ha, -⟩ := C4_walk_cycle true 6 0 { playerA with x_odometer := 8 }
    (by norm_num [playerA])
  obtain ⟨-, -, hb⟩ := C4_walk_cycle true (-5) 0 { playerA with x_odometer := 8 }
    (by norm_num [playerA])
  obtain ⟨ha1, ha2⟩ := ha hadv
  obtain ⟨hb1, -⟩ := hb hnadv
  refine ⟨?_, ha2, ?_⟩
  · rw [ha1]; norm_num [playerA]
  · rw [hb1]; norm_num [playerA]

/-! ## C5: facing-direction hysteresis -/

lemma pymunk_moved_face (g : Bool) (dx dy : ℚ) (p : PlayerSprite) :
    (pymunk_moved g dx dy p).character_face_direction =
      if dx < -DEAD_ZONE ∧ p.character_face_direction = RIGHT_FACING then LEFT_FACING
      else if dx > DEAD_ZONE ∧ p.character_face_direction = LEFT_FACING then RIGHT_FACING
      else p.character_face_direction := by
  simp only [pymunk_moved]
  split_ifs <;> rfl

lemma face_deadzone (g : Bool) (dx dy : ℚ) (p : PlayerSprite)
    (h : |dx| ≤ DEAD_ZONE) :
    (pymunk_moved g dx dy p).character_face_direction =
      p.character_face_direction := by
  obtain ⟨h1, h2⟩ := abs_le.mp h
  have hn1 : ¬(dx < -DEAD_ZONE ∧ p.character_face_direction = RIGHT_FACING) :=
    fun hc => absurd hc.1 (not_lt.mpr h1)
  have hn2 : ¬(dx > DEAD_ZONE ∧ p.character_face_direction = LEFT_FACING) :=
    fun hc => absurd hc.1 (not_lt.mpr h2)
  rw [pymunk_moved_face, if_neg hn1, if_neg hn2]

/-- C5: the facing direction flips only when the reported horizontal
displacement exceeds the dead zone (0.1) in magnitude and points against
the current facing; any call with `|dx|` at or below the dead zone — and
hence any sequence of such calls — leaves the facing unchanged. -/
theorem C5_facing_hysteresis (g : Bool) (dx dy : ℚ) (p : PlayerSprite)
    (ms : List (Bool × ℚ × ℚ)) :
    ((pymunk_moved g dx dy p).character_face_direction ≠
        p.character_face_direction →
      DEAD_ZONE < |dx| ∧
      ((dx < -DEAD_ZONE ∧ p.character_face_direction = RIGHT_FACING ∧
          (pymunk_moved g dx dy p).character_face_direction = LEFT_FACING) ∨
       (DEAD_ZONE < dx ∧ p.character_face_direction = LEFT_FACING ∧
          (pymunk_moved g dx dy p).character_face_direction = RIGHT_FACING))) ∧
    (|dx| ≤ DEAD_ZONE →
      (pymunk_moved g dx dy p).character_face_direction =
        p.character_face_direction) ∧
    ((∀ m ∈ ms, |m.2.1| ≤ DEAD_ZONE) →
      (runMoves ms p).character_face_direction = p.character_face_direction) := by
  refine ⟨?_, face_deadzone g dx dy p, ?_⟩
  · intro hne
    by_cases hc1 : dx < -DEAD_ZONE ∧ p.character_face_direction = RIGHT_FACING
    · refine ⟨lt_abs.mpr (Or.inr (by linarith [hc1.1])), Or.inl ⟨hc1.1, hc1.2, ?_⟩⟩
      rw [pymunk_moved_face, if_pos hc1]
    · by_cases hc2 : dx > DEAD_ZONE ∧ p.character_face_direction = LEFT_FACING
      · refine ⟨lt_abs.mpr (Or.inl hc2.1), Or.inr ⟨hc2.1, hc2.2, ?_⟩⟩
        rw [pymunk_moved_face, if_neg hc1, if_pos hc2]
      · exfalso
        exact hne (by rw [pymunk_moved_face, if_neg hc1, if_neg hc2])
  · induction ms generalizing p with
    | nil => intro _; rfl
    | cons m tail ih =>
      intro hall
      have hstep : runMoves (m :: tail) p =
          runMoves tail (pymunk_moved m.1 m.2.1 m.2.2 p) := rfl
      rw [hstep, ih _ (fun x hx => hall x (List.mem_cons_of_mem m hx)),
        face_deadzone _ _ _ _ (hall m (List.mem_cons_self m tail))]

/-- C5 witness: a concrete flip (dx = -5 from facing right), a sub-dead
zone call, and a two-call sub-dead-zone sequence. -/
theorem C5_facing_hysteresis_witness :
    DEAD_ZONE < |(-5 : ℚ)| ∧
    (pymunk_moved true (1/20) 0 playerA).character_face_direction =
      playerA.character_face_direction ∧
    (runMoves [(true, 1/20, 0), (false, -1/20, 1)] playerA).character_face_direction =
      playerA.character_face_direction := by
  refine ⟨?_, ?_, ?_⟩
  · refine ((C5_facing_hysteresis true (-5) 0 playerA []).1 ?_).1
    rw [pymunk_moved_face, if_pos ⟨by norm_num [DEAD_ZONE], rfl⟩]
    norm_num [playerA, LEFT_FACING, RIGHT_FACING]
  · exact (C5_facing_hysteresis true (1/20) 0 playerA []).2.1
      (by norm_num [DEAD_ZONE, abs_le])
  · refine (C5_facing_hysteresis true 0 0 playerA
      [(true, 1/20, 0), (false, -1/20, 1)]).2.2 ?_
    intro m hm
    simp only [List.mem_cons, List.not_mem_nil, or_false] at hm
    rcases hm with rfl | rfl <;> norm_num [DEAD_ZONE, abs_le]

/-! ## C6: integer snapping of the camera offsets -/

lemma scrollRawC6 : scrollRaw stateC6 = (-1/2, 0, true) := by
  have h1 : scrollLeft stateC6.player_sprite.left (stateC6.view_left, false) =
      (-1/2, true) := by
    norm_num [scrollLeft, stateC6, playerC6, PlayerSprite.left, LEFT_VIEWPORT_MARGIN]
  have h2 : scrollRight stateC6.player_sprite.right (-1/2, true) = (-1/2, true) := by
    norm_num [scrollRight, stateC6, playerC6, PlayerSprite.right,
      RIGHT_VIEWPORT_MARGIN, SCREEN_WIDTH]
  have h3 : scrollTop stateC6.player_sprite.top (stateC6.view_bottom, true) =
      (0, true) := by
    norm_num [scrollTop, stateC6, playerC6, PlayerSprite.top, TOP_VIEWPORT_MARGIN,
      SCREEN_HEIGHT]
  have h4 : scrollBottom stateC6.player_sprite.bottom (0, true) = (0, true) := by
    norm_num [scrollBottom, stateC6, playerC6, PlayerSprite.bottom,
      BOTTOM_VIEWPORT_MARGIN]
  simp only [scrollRaw, h1, h2, h3, h4]

lemma pyInt_neg_half : pyInt (-(1/2) : ℚ) = 0 := by
  unfold pyInt
  rw [if_pos (by norm_num)]
  norm_num [Int.ceil_eq_iff]

/-- C6 counterexample: at `stateC6` the camera accumulates the raw offset
`view_left = -1/2`, whose floor is `-1`, yet the offset stored and passed
to the renderer is `0`: Python's `int()` truncates toward zero and does
not floor negative offsets. -/
theorem C6_counterexample :
    (scrollRaw stateC6).1 = -1/2 ∧
    (scrollViewport stateC6).1.view_left = 0 ∧
    (⌊(scrollRaw stateC6).1⌋ : ℤ) = -1 ∧
    (scrollViewport stateC6).1.view_left ≠ ((⌊(scrollRaw stateC6).1⌋ : ℤ) : ℚ) ∧
    (scrollViewport stateC6).2 = [Effect.setViewport 0 1920 0 1080] := by
  have hview : scrollViewport stateC6 =
      ({ stateC6 with view_left := 0, view_bottom := 0 },
       [Effect.setViewport 0 1920 0 1080]) := by
    simp only [scrollViewport, scrollRawC6]
    norm_num [pyInt_neg_half, pyInt_zero, SCREEN_WIDTH, SCREEN_HEIGHT]
  have hfloor : (⌊(scrollRaw stateC6).1⌋ : ℤ) = -1 := by
    rw [scrollRawC6]
    norm_num [Int.floor_eq_iff]
  refine ⟨by rw [scrollRawC6], by rw [hview], hfloor, ?_, by rw [hview]⟩
  rw [hview, hfloor]
  norm_num

lemma check_not_fired {c : Prop} [Decidable c] (x : ℚ) (st : ℚ × Bool)
    (h : (if c then (x, true) else st).2 = false) :
    (if c then (x, true) else st) = st ∧ st.2 = false := by
  by_cases hc : c
  · rw [if_pos hc] at h
    exact absurd h (by simp)
  · rw [if_neg hc] at h ⊢
    exact ⟨rfl, h⟩

/-- C6 (amended): when any margin check fires, both offsets are converted
with Python's `int()` — truncation toward zero, which agrees with floor
only for nonnegative values — before being stored and passed to the
viewport call, so the applied offsets are always integers; when no check
fires the offsets are unchanged and no viewport call is made. -/
theorem C6_truncation (s : GameState) :
    ((scrollRaw s).2.2 = true →
      (scrollViewport s).1.view_left = ((pyInt (scrollRaw s).1 : ℤ) : ℚ) ∧
      (scrollViewport s).1.view_bottom = ((pyInt (scrollRaw s).2.1 : ℤ) : ℚ) ∧
      (scrollViewport s).2 =
        [Effect.setViewport ((pyInt (scrollRaw s).1 : ℤ) : ℚ)
          (SCREEN_WIDTH + ((pyInt (scrollRaw s).1 : ℤ) : ℚ))
          ((pyInt (scrollRaw s).2.1 : ℤ) : ℚ)
          (SCREEN_HEIGHT + ((pyInt (scrollRaw s).2.1 : ℤ) : ℚ))]) ∧
    ((scrollRaw s).2.2 = false →
      (scrollViewport s).1.view_left = s.view_left ∧
      (scrollViewport s).1.view_bottom = s.view_bottom ∧
      (scrollViewport s).2 = []) ∧
    (∀ q : ℚ, 0 ≤ q → pyInt q = ⌊q⌋) ∧
    (∀ q : ℚ, q < 0 → pyInt q = ⌈q⌉) := by
  refine ⟨?_, ?_, ?_, ?_⟩
  · intro h
    simp only [scrollViewport]
    rw [if_pos h]
    exact ⟨rfl, rfl, rfl⟩
  · intro h
    have hb := check_not_fired
      (c := s.player_sprite.bottom <
        (scrollTop s.player_sprite.top (s.view_bottom,
          (scrollRight s.player_sprite.right
            (scrollLeft s.player_sprite.left (s.view_left, false))).2)).1 +
          BOTTOM_VIEWPORT_MARGIN) _ _ h
    have ht := check_not_fired
      (c := (s.view_bottom,
          (scrollRight s.player_sprite.right
            (scrollLeft s.player_sprite.left (s.view_left, false))).2).1 +
            SCREEN_HEIGHT - TOP_VIEWPORT_MARGIN < s.player_sprite.top) _ _ hb.2
    have hr := check_not_fired
      (c := (scrollLeft s.player_sprite.left (s.view_left, false)).1 +
          SCREEN_WIDTH - RIGHT_VIEWPORT_MARGIN < s.player_sprite.right) _ _ ht.2
    have hl := check_not_fired
      (c := s.player_sprite.left < (s.view_left : ℚ) + LEFT_VIEWPORT_MARGIN) _ _ hr.2
    simp only [scrollViewport]
    rw [if_neg (by rw [h]; exact Bool.false_ne_true)]
    have hraw1 : (scrollRaw s).1 = s.view_left := by
      show (scrollRight s.player_sprite.right
        (scrollLeft s.player_sprite.left (s.view_left, false))).1 = s.view_left
      rw [show scrollRight s.player_sprite.right
          (scrollLeft s.player_sprite.left (s.view_left, false)) =
          scrollLeft s.player_sprite.left (s.view_left, false) from hr.1,
        show scrollLeft s.player_sprite.left (s.view_left, false) =
          (s.view_left, false) from hl.1]
    have hraw2 : (scrollRaw s).2.1 = s.view_bottom := by
      show (scrollBottom s.player_sprite.bottom
        (scrollTop s.player_sprite.top (s.view_bottom,
          (scrollRight s.player_sprite.right
            (scrollLeft s.player_sprite.left (s.view_left, false))).2))).1 =
          s.view_bottom
      rw [show scrollBottom s.player_sprite.bottom
          (scrollTop s.player_sprite.top (s.view_bottom,
            (scrollRight s.player_sprite.right
              (scrollLeft s.player_sprite.left (s.view_left, false))).2)) =
          scrollTop s.player_sprite.top (s.view_bottom,
            (scrollRight s.player_sprite.right
              (scrollLeft s.player_sprite.left (s.view_left, false))).2)
          from hb.1,
        show scrollTop s.player_sprite.top (s.view_bottom,
            (scrollRight s.player_sprite.right
              (scrollLeft s.player_sprite.left (s.view_left, false))).2) =
          (s.view_bottom,
            (scrollRight s.player_sprite.right
              (scrollLeft s.player_sprite.left (s.view_left, false))).2)
          from ht.1]
    exact ⟨by rw [hraw1], by rw [hraw2], rfl⟩
  · intro q hq
    unfold pyInt
    rw [if_neg (not_lt.mpr hq)]
  · intro q hq
    unfold pyInt
    rw [if_pos hq]

lemma scrollRawN :
    scrollRaw { stateV with player_sprite := { playerV with center_y := 500 } } =
      (0, 0, false) := by
  have h1 : scrollLeft (1000 : ℚ) ((0 : ℚ), false) = (0, false) := by
    norm_num [scrollLeft, LEFT_VIEWPORT_MARGIN]
  have h2 : scrollRight (1010 : ℚ) ((0 : ℚ), false) = (0, false) := by
    norm_num [scrollRight, RIGHT_VIEWPORT_MARGIN, SCREEN_WIDTH]
  have h3 : scrollTop (510 : ℚ) ((0 : ℚ), false) = (0, false) := by
    norm_num [scrollTop, TOP_VIEWPORT_MARGIN, SCREEN_HEIGHT]
  have h4 : scrollBottom (490 : ℚ) ((0 : ℚ), false) = (0, false) := by
    norm_num [scrollBottom, BOTTOM_VIEWPORT_MARGIN]
  have e1 : ({ stateV with player_sprite := { playerV with center_y := 500 } } :
      GameState).player_sprite.left = 1000 := by
    norm_num [stateV, playerV, PlayerSprite.left]
  have e2 : ({ stateV with player_sprite := { playerV with center_y := 500 } } :
      GameState).player_sprite.right = 1010 := by
    norm_num [stateV, playerV, PlayerSprite.right]
  have e3 : ({ stateV with player_sprite := { playerV with center_y := 500 } } :
      GameState).player_sprite.top = 510 := by
    norm_num [stateV, playerV, PlayerSprite.top]
  have e4 : ({ stateV with player_sprite := { playerV with center_y := 500 } } :
      GameState).player_sprite.bottom = 490 := by
    norm_num [stateV, playerV, PlayerSprite.bottom]
  have evl : stateV.view_left = 0 := rfl
  have evb : stateV.view_bottom = 0 := rfl
  simp only [scrollRaw, e1, e2, e3, e4, evl, evb, h1, h2, h3, h4]

/-- C6 witness: the truncation theorem applied at a firing tick
(`stateC6`) and a non-firing tick, plus the floor/ceil agreement facts at
concrete rationals. -/
theorem C6_truncation_witness :
    (scrollViewport stateC6).1.view_left = ((pyInt (scrollRaw stateC6).1 : ℤ) : ℚ) ∧
    (scrollViewport { stateV with player_sprite :=
        { playerV with center_y := 500 } }).2 = [] ∧
    pyInt (5/2) = ⌊(5/2 : ℚ)⌋ ∧ pyInt (-(1/2)) = ⌈(-(1/2) : ℚ)⌉ := by
  refine ⟨((C6_truncation stateC6).1 ?_).1,
    ((C6_truncation _).2.1 ?_).2.2,
    (C6_truncation stateC6).2.2.1 (5/2) (by norm_num),
    (C6_truncation stateC6).2.2.2 (-(1/2)) (by norm_num)⟩
  · rw [scrollRawC6]
  · rw [scrollRawN]

/-! ## C7: independence of the four margin checks -/

/-- C7: each margin check mutates only its own axis: on a tick entering
with integer offsets whose player keeps both horizontal edges inside the
horizontal margin band, `view_left` is unchanged by the camera update even
if vertical scrolling fires, and symmetrically `view_bottom` is unchanged
when both vertical edges stay inside the vertical margins. -/
theorem C7_margin_independence (s : GameState) (n m : ℤ)
    (hn : s.view_left = (n : ℚ)) (hm : s.view_bottom = (m : ℚ)) :
    (s.view_left + LEFT_VIEWPORT_MARGIN ≤ s.player_sprite.left →
      s.player_sprite.right ≤ s.view_left + SCREEN_WIDTH - RIGHT_VIEWPORT_MARGIN →
      (scrollViewport s).1.view_left = s.view_left) ∧
    (s.player_sprite.top ≤ s.view_bottom + SCREEN_HEIGHT - TOP_VIEWPORT_MARGIN →
      s.view_bottom + BOTTOM_VIEWPORT_MARGIN ≤ s.player_sprite.bottom →
      (scrollViewport s).1.view_bottom = s.view_bottom) := by
  constructor
  · intro hL hR
    have hl : scrollLeft s.player_sprite.left (s.view_left, false) =
        (s.view_left, false) := by
      unfold scrollLeft
      rw [if_neg (not_lt.mpr hL)]
    have hr : scrollRight s.player_sprite.right (s.view_left, false) =
        (s.view_left, false) := by
      unfold scrollRight
      rw [if_neg (not_lt.mpr hR)]
    have hraw1 : (scrollRaw s).1 = s.view_left := by
      show (scrollRight s.player_sprite.right
        (scrollLeft s.player_sprite.left (s.view_left, false))).1 = s.view_left
      rw [hl, hr]
    simp only [scrollViewport]
    by_cases hc : (scrollRaw s).2.2 = true
    · rw [if_pos hc]
      show ((pyInt (scrollRaw s).1 : ℤ) : ℚ) = s.view_left
      rw [hraw1, hn, pyInt_intCast]
    · rw [if_neg hc]
      exact hraw1
  · intro hT hB
    have hflag : ∀ b : Bool,
        scrollBottom s.player_sprite.bottom
          (scrollTop s.player_sprite.top (s.view_bottom, b)) =
          (s.view_bottom, b) := by
      intro b
      have ht : scrollTop s.player_sprite.top (s.view_bottom, b) =
          (s.view_bottom, b) := by
        unfold scrollTop
        rw [if_neg (not_lt.mpr hT)]
      rw [ht]
      unfold scrollBottom
      rw [if_neg (not_lt.mpr hB)]
    have hraw2 : (scrollRaw s).2.1 = s.view_bottom := by
      show (scrollBottom s.player_sprite.bottom
        (scrollTop s.player_sprite.top (s.view_bottom,
          (scrollRight s.player_sprite.right
            (scrollLeft s.player_sprite.left (s.view_left, false))).2))).1 =
        s.view_bottom
      rw [hflag]
    simp only [scrollViewport]
    by_cases hc : (scrollRaw s).2.2 = true
    · rw [if_pos hc]
      show ((pyInt (scrollRaw s).2.1 : ℤ) : ℚ) = s.view_bottom
      rw [hraw2, hm, pyInt_intCast]
    · rw [if_neg hc]
      exact hraw2

/-- C7 witness: at `stateV` vertical scrolling fires but `view_left` is
untouched; at `stateH` horizontal scrolling fires but `view_bottom` is
untouched. -/
theorem C7_margin_independence_witness :
    (scrollViewport stateV).1.view_left = stateV.view_left ∧
    (scrollViewport stateH).1.view_bottom = stateH.view_bottom ∧
    (scrollRaw stateV).2.2 = true ∧ (scrollRaw stateH).2.2 = true := by
  have hV := (C7_margin_independence stateV 0 0 (by norm_num [stateV])
    (by norm_num [stateV])).1
    (by norm_num [stateV, playerV, PlayerSprite.left, LEFT_VIEWPORT_MARGIN])
    (by norm_num [stateV, playerV, PlayerSprite.right, RIGHT_VIEWPORT_MARGIN,
      SCREEN_WIDTH])
  have hH := (C7_margin_independence stateH 0 0 (by norm_num [stateH])
    (by norm_num [stateH])).2
    (by norm_num [stateH, playerH, PlayerSprite.top, TOP_VIEWPORT_MARGIN,
      SCREEN_HEIGHT])
    (by norm_num [stateH, playerH, PlayerSprite.bottom, BOTTOM_VIEWPORT_MARGIN])
  refine ⟨hV, hH, ?_, ?_⟩
  · have h1 : scrollLeft stateV.player_sprite.left (stateV.view_left, false) =
        (0, false) := by
      norm_num [scrollLeft, stateV, playerV, PlayerSprite.left, LEFT_VIEWPORT_MARGIN]
    have h2 : scrollRight stateV.player_sprite.right ((0 : ℚ), false) =
        (0, false) := by
      norm_num [scrollRight, stateV, playerV, PlayerSprite.right,
        RIGHT_VIEWPORT_MARGIN, SCREEN_WIDTH]
    have h3 : scrollTop stateV.player_sprite.top (stateV.view_bottom, false) =
        (1030, true) := by
      norm_num [scrollTop, stateV, playerV, PlayerSprite.top, TOP_VIEWPORT_MARGIN,
        SCREEN_HEIGHT]
    have h4 : scrollBottom stateV.player_sprite.bottom ((1030 : ℚ), true) =
        (1030, true) := by
      norm_num [scrollBottom, stateV, playerV, PlayerSprite.bottom,
        BOTTOM_VIEWPORT_MARGIN]
    simp only [scrollRaw, h1, h2, h3, h4]
  · have h1 : scrollLeft stateH.player_sprite.left (stateH.view_left, false) =
        (-800, true) := by
      norm_num [scrollLeft, stateH, playerH, PlayerSprite.left, LEFT_VIEWPORT_MARGIN]
    have h2 : scrollRight stateH.player_sprite.right ((-800 : ℚ), true) =
        (-800, true) := by
      norm_num [scrollRight, stateH, playerH, PlayerSprite.right,
        RIGHT_VIEWPORT_MARGIN, SCREEN_WIDTH]
    have h3 : scrollTop stateH.player_sprite.top (stateH.view_bottom, true) =
        (0, true) := by
      norm_num [scrollTop, stateH, playerH, PlayerSprite.top, TOP_VIEWPORT_MARGIN,
        SCREEN_HEIGHT]
    have h4 : scrollBottom stateH.player_sprite.bottom ((0 : ℚ), true) =
        (0, true) := by
      norm_num [scrollBottom, stateH, playerH, PlayerSprite.bottom,
        BOTTOM_VIEWPORT_MARGIN]
    simp only [scrollRaw, h1, h2, h3, h4]

/-! ## C8: the jump impulse is edge-triggered -/

/-- C8: a jump-key press while ground-contacted issues exactly one upward
impulse of magnitude `PLAYER_JUMP_IMPULSE = 1400` and changes no window
state; a press while airborne issues nothing and changes nothing; and no
update tick ever issues an impulse, so holding the key cannot re-apply
it. -/
theorem C8_jump_impulse (g : Bool) (k : Key) (s : GameState) (env : Env)
    (o : TickOracle) :
    ((k = Key.upArrow ∨ k = Key.space ∨ k = Key.w) →
      (g = true →
        GameWindow.on_key_press g k s =
          (s, [Effect.applyImpulse 0 PLAYER_JUMP_IMPULSE]) ∧
        PLAYER_JUMP_IMPULSE = 1400) ∧
      (g = false → GameWindow.on_key_press g k s = (s, []))) ∧
    (GameWindow.on_update env o s).2.all (fun e => !e.isImpulse) = true := by
  constructor
  · intro hk
    constructor
    · intro hg
      subst hg
      rcases hk with rfl | rfl | rfl <;>
        exact ⟨by simp [GameWindow.on_key_press], rfl⟩
    · intro hg
      subst hg
      rcases hk with rfl | rfl | rfl <;> simp [GameWindow.on_key_press]
  · rw [on_update_trace]
    simp only [List.all_append, Bool.and_eq_true]
    refine ⟨⟨⟨⟨?_, ?_⟩, ?_⟩, ?_⟩, ?_⟩
    · rw [updatePlayerForces]
      split_ifs <;> simp [Effect.isImpulse]
    · rw [checkLevelEnd]
      split_ifs <;> simp [Effect.isImpulse]
    · simp only [scrollViewport]
      rcases h : scrollRaw (checkLevelEnd env s).1 with ⟨vl, vb, c⟩
      cases c <;> simp [Effect.isImpulse]
    · rw [collectGems]
      simp [List.all_eq_true, Effect.isImpulse]
    · simp [Effect.isImpulse]

/-- C8 witness: a grounded space press at `stateA` issues the single 1400
impulse; an airborne press issues nothing. -/
theorem C8_jump_impulse_witness :
    GameWindow.on_key_press true Key.space stateA =
      (stateA, [Effect.applyImpulse 0 1400]) ∧
    GameWindow.on_key_press false Key.space stateA = (stateA, []) := by
  have h := (C8_jump_impulse true Key.space stateA envA oracleA).1
    (Or.inr (Or.inl rfl))
  have h' := (C8_jump_impulse false Key.space stateA envA oracleA).1
    (Or.inr (Or.inl rfl))
  obtain ⟨h1, -⟩ := h.1 rfl
  refine ⟨?_, h'.2 rfl⟩
  rw [h1]
  simp [PLAYER_JUMP_IMPULSE]

/-! ## C9: collectible pickup -/

/-- C9: every gem colliding with the player this tick is removed from the
gem list exactly once (its count drops to 0) with exactly one pickup
sound per removed gem; non-colliding gems keep their count; and a gem
absent from the list stays absent under any further sequence of pickup
passes of the same level instance. -/
theorem C9_gem_pickup (hit : ℕ → Bool) (s : GameState) (gem : ℕ)
    (hs : List (ℕ → Bool)) :
    (hit gem = true → (collectGems hit s).1.gem_list.count gem = 0) ∧
    (hit gem = false →
      (collectGems hit s).1.gem_list.count gem = s.gem_list.count gem) ∧
    ((collectGems hit s).2.length =
        (s.gem_list.filter (fun g => hit g)).length ∧
      (collectGems hit s).2.all Effect.isSound = true) ∧
    (gem ∉ s.gem_list → gem ∉ (runGemTicks hs s).gem_list) := by
  refine ⟨?_, ?_, ⟨?_, ?_⟩, ?_⟩
  · intro h
    simp [collectGems, List.count_eq_zero, List.mem_filter, h]
  · intro h
    simp only [collectGems]
    induction s.gem_list with
    | nil => rfl
    | cons a l ih =>
      rcases hhit : hit a with _ | _
      · simp [List.filter_cons, hhit, List.count_cons, ih]
      · have hne : gem ≠ a := fun he => by rw [← he, h] at hhit; cases hhit
        simp [List.filter_cons, hhit, List.count_cons, hne, ih]
  · simp [collectGems]
  · simp [collectGems, List.all_eq_true, Effect.isSound]
  · induction hs generalizing s with
    | nil => exact fun h => h
    | cons hd tl ih =>
      intro hnot
      exact ih _ (fun hmem => hnot (List.mem_of_mem_filter hmem))

/-- C9 witness: at `stateA` (gem list `[1]`) a colliding tick removes gem
1, a non-colliding tick keeps it, and gem 2 — never present — is still
absent after a further pass. -/
theorem C9_gem_pickup_witness :
    (collectGems oracleA.hit stateA).1.gem_list.count 1 = 0 ∧
    (collectGems (fun _ => false) stateA).1.gem_list.count 1 =
      stateA.gem_list.count 1 ∧
    2 ∉ (runGemTicks [oracleA.hit] stateA).gem_list := by
  refine ⟨(C9_gem_pickup oracleA.hit stateA 1 []).1 rfl,
    (C9_gem_pickup (fun _ => false) stateA 1 []).2.1 rfl,
    (C9_gem_pickup oracleA.hit stateA 2 [oracleA.hit]).2.2.2 ?_⟩
  simp [stateA]

/-! ## C10: what `setup` does not reset -/

/-- C10: `setup` leaves the camera offsets and the held-key flags
untouched (they are written only by the constructor, the camera update and
the key callbacks), so a level transition keeps the pre-transition camera
offsets and any held movement keys; symmetrically, a full update tick
never writes the key flags and the key callbacks never write the offsets. -/
theorem C10_setup_preserves (env : Env) (lvl : ℕ) (s : GameState)
    (o : TickOracle) (g : Bool) (k : Key) :
    (GameWindow.setup env lvl s).view_left = s.view_left ∧
    (GameWindow.setup env lvl s).view_bottom = s.view_bottom ∧
    (GameWindow.setup env lvl s).left_pressed = s.left_pressed ∧
    (GameWindow.setup env lvl s).right_pressed = s.right_pressed ∧
    (checkLevelEnd env s).1.view_left = s.view_left ∧
    (checkLevelEnd env s).1.view_bottom = s.view_bottom ∧
    (checkLevelEnd env s).1.left_pressed = s.left_pressed ∧
    (checkLevelEnd env s).1.right_pressed = s.right_pressed ∧
    (GameWindow.on_update env o s).1.left_pressed = s.left_pressed ∧
    (GameWindow.on_update env o s).1.right_pressed = s.right_pressed ∧
    (GameWindow.on_key_press g k s).1.view_left = s.view_left ∧
    (GameWindow.on_key_press g k s).1.view_bottom = s.view_bottom ∧
    (GameWindow.on_key_release k s).view_left = s.view_left ∧
    (GameWindow.on_key_release k s).view_bottom = s.view_bottom := by
  obtain ⟨c1, c2, c3, c4⟩ := checkLevelEnd_fields env s
  have hup_l : (GameWindow.on_update env o s).1.left_pressed =
      (scrollViewport (checkLevelEnd env s).1).1.left_pressed := rfl
  have hup_r : (GameWindow.on_update env o s).1.right_pressed =
      (scrollViewport (checkLevelEnd env s).1).1.right_pressed := rfl
  obtain ⟨-, -, -, -, s5, s6, -, -⟩ := scrollViewport_fields (checkLevelEnd env s).1
  refine ⟨rfl, rfl, rfl, rfl, c1, c2, c3, c4, ?_, ?_, ?_, ?_, ?_, ?_⟩
  · rw [hup_l, s5, c3]
  · rw [hup_r, s6, c4]
  · unfold GameWindow.on_key_press
    split_ifs <;> rfl
  · unfold GameWindow.on_key_press
    split_ifs <;> rfl
  · unfold GameWindow.on_key_release
    split_ifs <;> rfl
  · unfold GameWindow.on_key_release
    split_ifs <;> rfl

end Platformer
